import Mathlib

/-!
Shallow embedding of the two microservices of this repository:
the streaming TTS service (src/streaming-tts-service/app.py) and the
Silero VAD service (src/vad-service/app.py).  External pretrained models
(Parler-TTS generation, the Silero VAD network, numpy's float sine) are
parameters of the handler functions; everything the repository's own code
computes is embedded directly.  Floats are modelled as rationals.
-/

namespace TTS

/-- `SAMPLING_RATE = 24000` from src/streaming-tts-service/app.py. -/
def SAMPLING_RATE : ℕ := 24000

/-- `AUDIO_DIR = '/tmp/tts_audio'`. -/
def AUDIO_DIR : String := "/tmp/tts_audio"

/-- Whitespace characters recognised by Python's `str.split()` (ASCII subset). -/
def isPySpace (c : Char) : Bool :=
  c == ' ' || c == '\t' || c == '\n' || c == '\r' || c == '\x0b' || c == '\x0c'

/-- Accumulator-based model of Python `str.split()` on a character list:
splits on runs of whitespace, discarding empty fields. -/
def pySplitAux : List Char → List Char → List (List Char)
  | [], [] => []
  | [], acc => [acc.reverse]
  | c :: rest, acc =>
    if isPySpace c then
      match acc with
      | [] => pySplitAux rest []
      | _ :: _ => acc.reverse :: pySplitAux rest []
    else
      pySplitAux rest (c :: acc)

/-- Python `text.split()`. -/
def pySplit (s : String) : List (List Char) := pySplitAux s.data []

/-- `len(text.split())`: the number of whitespace-separated words. -/
def wordCount (s : String) : ℕ := (pySplit s).length

/-- `np.linspace(a, b, n, False)`: `n` evenly spaced values starting at `a`,
excluding the endpoint `b` (step `(b - a) / n`). -/
def linspace (a b : ℚ) (n : ℕ) : List ℚ :=
  (List.range n).map (fun (i : ℕ) => a + (b - a) * (i : ℚ) / (n : ℚ))

/-- Truncation toward zero, as Python `int()` and numpy float→int casts do. -/
def ratTrunc (x : ℚ) : ℤ := if 0 ≤ x then x.floor else x.ceil

/-- Wrap an integer into the int16 range, modelling the numpy `astype(np.int16)`
conversion applied after scaling by 32767. -/
def wrapInt16 (v : ℤ) : ℤ := (v + 32768) % 65536 - 32768

/-- `(x * 32767).astype(np.int16)` applied to one sample. -/
def pcm16 (x : ℚ) : ℤ := wrapInt16 (ratTrunc (x * 32767))

/-- The fallback branch of `text_to_speech` (lines 123-141), duplicated
verbatim in `text_to_speech_stream` (lines 214-220):
`duration = len(text.split()) * 0.5`, `samples = int(duration * SAMPLING_RATE)`,
`t = np.linspace(0, duration, samples, False)`,
`audio_arr = np.sin(frequency * 2 * np.pi * t) * 0.3` with `frequency = 440`.
`sinF` stands for `np.sin` and `piF` for `np.pi`. -/
def fallbackAudio (sinF : ℚ → ℚ) (piF : ℚ) (text : String) : List ℚ :=
  let duration : ℚ := (wordCount text : ℚ) * (1 / 2)
  let samples : ℕ := (ratTrunc (duration * (SAMPLING_RATE : ℚ))).toNat
  (linspace 0 duration samples).map (fun t => sinF (440 * 2 * piF * t) * (3 / 10))

/-- The audio array produced for a given request: the Parler-TTS generation
(`gen style text`, an oracle for `model.generate` + squeeze) when the model
is loaded, else the fallback sine tone.  Both `/api/tts` and
`/api/tts_stream` compute exactly this array. -/
def generatedAudio (modelLoaded : Bool) (gen : String → String → List ℚ)
    (sinF : ℚ → ℚ) (piF : ℚ) (style text : String) : List ℚ :=
  if modelLoaded then gen style text else fallbackAudio sinF piF text

/-- A JSON body for `/api/tts`: each field may be absent. -/
structure TTSRequest where
  text : Option String
  language : Option String
  style : Option String

/-- Outcome of the `/api/tts` handler. -/
inductive TTSResult where
  | badRequest (msg : String)
  | ok (audio_file : String) (duration : ℕ) (sampling_rate : ℕ) (model_used : String)
deriving DecidableEq

def TTSResult.isOk : TTSResult → Bool
  | .ok _ _ _ _ => true
  | .badRequest _ => false

def TTSResult.modelUsed : TTSResult → Option String
  | .ok _ _ _ m => some m
  | .badRequest _ => none

def TTSResult.durationMs : TTSResult → Option ℕ
  | .ok _ d _ _ => some d
  | .badRequest _ => none

/-- `os.path.join(a, b)` for one component (POSIX): an absolute `b`
discards `a`. -/
def osPathJoin (a b : String) : String :=
  if b.data.head? = some '/' then b else a ++ "/" ++ b

/-- The `/api/tts` handler (`text_to_speech`, lines 67-157).  `files` is the
map full-path ↦ samples of files on disk; `uuid` is the value of
`str(uuid.uuid4())` drawn for this request.  Returns the HTTP result and the
updated file map. -/
def text_to_speech (modelLoaded : Bool) (gen : String → String → List ℚ)
    (sinF : ℚ → ℚ) (piF : ℚ) (uuid : String)
    (files : List (String × List ℚ)) (req : TTSRequest) :
    TTSResult × List (String × List ℚ) :=
  let text := req.text.getD ""
  let _language := req.language.getD "en"
  let style := req.style.getD "A clear, friendly voice speaks naturally."
  if text = "" then
    (.badRequest "No text provided", files)
  else
    let audio_filename := uuid ++ ".wav"
    let audio_path := osPathJoin AUDIO_DIR audio_filename
    let audio_arr := generatedAudio modelLoaded gen sinF piF style text
    let files' := (audio_path, audio_arr) :: files
    let duration_ms : ℕ :=
      (ratTrunc (((audio_arr.length : ℚ) / (SAMPLING_RATE : ℚ)) * 1000)).toNat
    let audio_url := "/audio/" ++ audio_filename
    (.ok audio_url duration_ms SAMPLING_RATE
        (if modelLoaded then "parler-tts" else "fallback"), files')

/-- Slicing `audio_arr` into chunks of 4096 samples:
`for i in range(0, len(audio_arr), chunk_size): chunk = audio_arr[i:i+chunk_size]`. -/
def chunks4096 : List ℚ → List (List ℚ)
  | [] => []
  | a :: l => (a :: l).take 4096 :: chunks4096 ((a :: l).drop 4096)
termination_by l => l.length
decreasing_by simp [List.length_drop]; omega

/-- Outcome of the `/api/tts_stream` handler: a 400 error or the list of
emitted chunks, each chunk already converted to int16 samples. -/
inductive StreamResult where
  | badRequest (msg : String)
  | stream (chunks : List (List ℤ))
deriving DecidableEq

/-- The `/api/tts_stream` handler (`text_to_speech_stream`, lines 159-241).
Generates the complete audio array (same call as `/api/tts`), then slices it
into 4096-sample chunks, converting each to int16 bytes. -/
def text_to_speech_stream (modelLoaded : Bool) (gen : String → String → List ℚ)
    (sinF : ℚ → ℚ) (piF : ℚ) (req : TTSRequest) : StreamResult :=
  let text := req.text.getD ""
  let style := req.style.getD "A clear, friendly voice speaks naturally."
  if text = "" then
    .badRequest "No text provided"
  else
    let audio_arr := generatedAudio modelLoaded gen sinF piF style text
    .stream ((chunks4096 audio_arr).map (fun c => c.map pcm16))

/-- Outcome of the `/audio/<filename>` handler. -/
inductive ServeResult where
  | file (samples : List ℚ)
  | notFound
deriving DecidableEq

/-- `os.path.exists` + read, over the file map: find the contents stored at
a full path. -/
def findFile (path : String) : List (String × List ℚ) → Option (List ℚ)
  | [] => none
  | p :: rest => if path = p.1 then some p.2 else findFile path rest

/-- The `/audio/<filename>` handler (`serve_audio`, lines 243-253):
joins the filename onto `AUDIO_DIR` and serves the file if it exists,
else returns 404. -/
def serve_audio (files : List (String × List ℚ)) (filename : String) : ServeResult :=
  let audio_path := osPathJoin AUDIO_DIR filename
  match findFile audio_path files with
  | some samples => .file samples
  | none => .notFound

end TTS

namespace VAD

/-- `SAMPLING_RATE = 16000` from src/vad-service/app.py. -/
def SAMPLING_RATE : ℕ := 16000

/-- `THRESHOLD = 0.5`. -/
def THRESHOLD : ℚ := 1 / 2

/-- One entry of the `get_speech_timestamps` output: sample offsets
`{'start': ..., 'end': ...}`. -/
structure Segment where
  start : ℕ
  stop : ℕ
deriving DecidableEq

/-- Oracles for the external Silero library calls: `read_audio` (decoding
the saved temp file, which may raise), `get_speech_timestamps` (the
segmentation pass), and `model(audio, sr).item()` (one forward pass giving
a speech probability). -/
structure Oracle where
  read_audio : List ℕ → Except String (List ℚ)
  get_speech_timestamps : List ℚ → List Segment
  modelProb : List ℚ → ℚ

/-- Outcome of the `/api/detect` handler body. -/
inductive DetectResult where
  | badRequest (msg : String)
  | ok (has_speech : Bool) (timestamps : List (ℚ × ℚ)) (confidence : ℚ)
      (num_segments : ℕ)
  | serverError (msg : String)
deriving DecidableEq

/-- Full outcome of one `/api/detect` call: the HTTP result, the temp files
remaining on disk, and how many times the VAD model was invoked for
confidence scoring. -/
structure DetectOutcome where
  result : DetectResult
  tmpFiles : List String
  modelCalls : ℕ
deriving DecidableEq

/-- `np.mean` of a rational list (`0` guarded against separately in the
handler, matching `if speech_probs else 0.0`). -/
def npMean (l : List ℚ) : ℚ := l.sum / l.length

/-- `wav[segment['start']:segment['end']]`. -/
def pySlice (wav : List ℚ) (a b : ℕ) : List ℚ := (wav.take b).drop a

/-- `os.unlink(tmp_path)` guarded by `os.path.exists(tmp_path)`. -/
def unlinkIfExists (path : String) (tmpFiles : List String) : List String :=
  if path ∈ tmpFiles then tmpFiles.filter (fun p => p != path) else tmpFiles

/-- The `/api/detect` handler (`detect_speech`, lines 43-122).  `file?` is
the uploaded file's bytes (`none` when the `file` field is missing);
`tmp_path` is the fresh name chosen by `tempfile.NamedTemporaryFile`;
`tmpFiles` is the set of temp files on disk.  The inner `try ... finally`
deletes the temp file on both the success path and the exception path (the
exception then being turned into a 500 by the outer handler). -/
def detect_speech (o : Oracle) (tmp_path : String) (tmpFiles : List String)
    (file? : Option (List ℕ)) : DetectOutcome :=
  match file? with
  | none => ⟨.badRequest "No file provided", tmpFiles, 0⟩
  | some content =>
    let tmpFiles1 := tmp_path :: tmpFiles
    match o.read_audio content with
    | .error e => ⟨.serverError e, unlinkIfExists tmp_path tmpFiles1, 0⟩
    | .ok wav =>
      let speech_timestamps := o.get_speech_timestamps wav
      let has_speech := decide (0 < speech_timestamps.length)
      let speech_probs :=
        if has_speech then
          speech_timestamps.map
            (fun seg => o.modelProb (pySlice wav seg.start seg.stop))
        else []
      let avg_confidence := if speech_probs.isEmpty then 0 else npMean speech_probs
      let timestamps_seconds :=
        speech_timestamps.map
          (fun ts => ((ts.start : ℚ) / (SAMPLING_RATE : ℚ),
                      (ts.stop : ℚ) / (SAMPLING_RATE : ℚ)))
      ⟨.ok has_speech timestamps_seconds avg_confidence speech_timestamps.length,
        unlinkIfExists tmp_path tmpFiles1, speech_probs.length⟩

def DetectResult.timestamps : DetectResult → Option (List (ℚ × ℚ))
  | .ok _ ts _ _ => some ts
  | _ => none

/-- Reassemble a signed int16 from two bytes (little-endian), as
`np.frombuffer(..., dtype=np.int16)` does per sample. -/
def toInt16 (lo hi : ℕ) : ℤ :=
  let u := lo + 256 * hi
  if u < 32768 then (u : ℤ) else (u : ℤ) - 65536

/-- `np.frombuffer(audio_bytes, dtype=np.int16)`: fails (ValueError) when
the byte count is not a multiple of the 2-byte element size, otherwise
decodes consecutive little-endian int16 samples. -/
def frombufferInt16 : List ℕ → Option (List ℤ)
  | [] => some []
  | [_] => none
  | lo :: hi :: rest => (frombufferInt16 rest).map (fun l => toInt16 lo hi :: l)

/-- Outcome of one `/api/detect_stream` call: the HTTP result plus the
number of model invocations. -/
inductive StreamDetectResult where
  | ok (is_speech : Bool) (probability : ℚ) (threshold : ℚ)
  | serverError (msg : String)
deriving DecidableEq

/-- The `/api/detect_stream` handler (`detect_stream`, lines 124-164).
`body` is the raw byte payload (from the uploaded `file` field or
`request.data`).  A decode failure propagates to the outer `except` and
yields a 500; otherwise samples are normalized by `/ 32768.0` and the model
is evaluated once. -/
def detect_stream (o : Oracle) (body : List ℕ) : StreamDetectResult × ℕ :=
  match frombufferInt16 body with
  | none => (.serverError "buffer size must be a multiple of element size", 0)
  | some samples =>
    let audio_array := samples.map (fun (v : ℤ) => (v : ℚ) / 32768)
    let speech_prob := o.modelProb audio_array
    let is_speech := decide (THRESHOLD < speech_prob)
    (.ok is_speech speech_prob THRESHOLD, 1)

/-- A trivial oracle instance (no speech anywhere), used to instantiate
theorems at concrete inputs. -/
def oracle0 : Oracle :=
  ⟨fun _ => Except.ok [], fun _ => [], fun _ => 0⟩

/-- An oracle instance reporting two ordered speech segments, used to
instantiate theorems at concrete inputs. -/
def oracle1 : Oracle :=
  ⟨fun _ => Except.ok [], fun _ => [⟨0, 160⟩, ⟨320, 480⟩], fun _ => 1⟩

end VAD

namespace TTS

lemma length_linspace (a b : ℚ) (n : ℕ) : (linspace a b n).length = n := by
  rw [linspace, List.length_map, List.length_range]

lemma ratTrunc_natCast (n : ℕ) : ratTrunc (n : ℚ) = (n : ℤ) := by
  rw [ratTrunc, if_pos (by positivity)]
  rw [Rat.floor_def', ← Rat.floor_def, Int.floor_natCast]

lemma fallbackAudio_length (sinF : ℚ → ℚ) (piF : ℚ) (t : String) :
    (fallbackAudio sinF piF t).length = 12000 * wordCount t := by
  have h : ((wordCount t : ℚ) * (1 / 2)) * (SAMPLING_RATE : ℚ) =
      ((12000 * wordCount t : ℕ) : ℚ) := by
    simp only [SAMPLING_RATE]
    push_cast
    ring
  simp only [fallbackAudio, List.length_map, length_linspace, h, ratTrunc_natCast,
    Int.toNat_natCast]

end TTS

/-- C1: a synthesize request whose text field is empty or absent gets a 400
error response and leaves the set of audio files on disk unchanged. -/
theorem c1_empty_text_returns_400 (ml : Bool) (gen : String → String → List ℚ)
    (sinF : ℚ → ℚ) (piF : ℚ) (uuid : String) (files : List (String × List ℚ))
    (req : TTS.TTSRequest) (h : req.text = none ∨ req.text = some "") :
    (TTS.text_to_speech ml gen sinF piF uuid files req).1 =
      .badRequest "No text provided" ∧
    (TTS.text_to_speech ml gen sinF piF uuid files req).2 = files := by
  rcases h with h | h <;> simp [TTS.text_to_speech, h]

theorem c1_empty_text_returns_400_witness :
    (TTS.text_to_speech false (fun _ _ => []) (fun _ => 0) 0 "id" []
        ⟨none, none, none⟩).1 = .badRequest "No text provided" ∧
    (TTS.text_to_speech false (fun _ _ => []) (fun _ => 0) 0 "id" []
        ⟨none, none, none⟩).2 = [] :=
  c1_empty_text_returns_400 false (fun _ _ => []) (fun _ => 0) 0 "id" []
    ⟨none, none, none⟩ (Or.inl rfl)

/-- C2: with the model not loaded, a non-empty text gets a success response
whose reported duration is exactly 500 milliseconds per whitespace-separated
word. -/
theorem c2_fallback_duration_formula (gen : String → String → List ℚ)
    (sinF : ℚ → ℚ) (piF : ℚ) (uuid : String) (files : List (String × List ℚ))
    (req : TTS.TTSRequest) (t : String) (ht : req.text = some t) (hne : t ≠ "") :
    (TTS.text_to_speech false gen sinF piF uuid files req).1.durationMs =
      some (500 * TTS.wordCount t) := by
  have hlen : (TTS.generatedAudio false gen sinF piF
      (req.style.getD "A clear, friendly voice speaks naturally.") t).length =
      12000 * TTS.wordCount t := by
    simp [TTS.generatedAudio, TTS.fallbackAudio_length]
  simp only [TTS.text_to_speech, ht, Option.getD_some, if_neg hne]
  simp only [TTS.TTSResult.durationMs, Option.some_inj]
  rw [hlen]
  have h2 : ((12000 * TTS.wordCount t : ℕ) : ℚ) / (TTS.SAMPLING_RATE : ℚ) * 1000 =
      ((500 * TTS.wordCount t : ℕ) : ℚ) := by
    simp only [TTS.SAMPLING_RATE]
    push_cast
    ring
  rw [h2, TTS.ratTrunc_natCast, Int.toNat_natCast]

theorem c2_fallback_duration_formula_witness :
    (TTS.text_to_speech false (fun _ _ => []) (fun _ => 0) 0 "id" []
        ⟨some "hello wide world", none, none⟩).1.durationMs = some 1500 :=
  c2_fallback_duration_formula (fun _ _ => []) (fun _ => 0) 0 "id" []
    ⟨some "hello wide world", none, none⟩ "hello wide world" rfl (by decide)

/-- C3: a non-empty text always gets a success response; its model_used field
is "parler-tts" when the model is loaded and "fallback" otherwise, and in the
fallback case the file written is the placeholder sine tone. -/
theorem c3_fallback_success_model_used (ml : Bool) (gen : String → String → List ℚ)
    (sinF : ℚ → ℚ) (piF : ℚ) (uuid : String) (files : List (String × List ℚ))
    (req : TTS.TTSRequest) (t : String) (ht : req.text = some t) (hne : t ≠ "") :
    (TTS.text_to_speech ml gen sinF piF uuid files req).1.isOk = true ∧
    (TTS.text_to_speech ml gen sinF piF uuid files req).1.modelUsed =
      some (if ml then "parler-tts" else "fallback") ∧
    (ml = false →
      (TTS.text_to_speech ml gen sinF piF uuid files req).2 =
        (TTS.osPathJoin TTS.AUDIO_DIR (uuid ++ ".wav"),
          TTS.fallbackAudio sinF piF t) :: files) := by
  simp only [TTS.text_to_speech, ht, Option.getD_some, if_neg hne]
  refine ⟨rfl, rfl, ?_⟩
  intro hml
  subst hml
  simp [TTS.generatedAudio]

theorem c3_fallback_success_model_used_witness :
    (TTS.text_to_speech false (fun _ _ => []) (fun _ => 0) 0 "id" []
        ⟨some "hi", none, none⟩).1.isOk = true ∧
    (TTS.text_to_speech false (fun _ _ => []) (fun _ => 0) 0 "id" []
        ⟨some "hi", none, none⟩).1.modelUsed =
      some (if false then "parler-tts" else "fallback") ∧
    (false = false →
      (TTS.text_to_speech false (fun _ _ => []) (fun _ => 0) 0 "id" []
          ⟨some "hi", none, none⟩).2 =
        (TTS.osPathJoin TTS.AUDIO_DIR ("id" ++ ".wav"),
          TTS.fallbackAudio (fun _ => 0) 0 "hi") :: []) :=
  c3_fallback_success_model_used false (fun _ _ => []) (fun _ => 0) 0 "id" []
    ⟨some "hi", none, none⟩ "hi" rfl (by decide)

/-- C8: the language field of a synthesize request does not influence the
handler's output: two requests equal except for language yield the same
response and the same file-system effect. -/
theorem c8_language_noninterference (ml : Bool) (gen : String → String → List ℚ)
    (sinF : ℚ → ℚ) (piF : ℚ) (uuid : String) (files : List (String × List ℚ))
    (r1 r2 : TTS.TTSRequest) (htext : r1.text = r2.text)
    (hstyle : r1.style = r2.style) :
    TTS.text_to_speech ml gen sinF piF uuid files r1 =
      TTS.text_to_speech ml gen sinF piF uuid files r2 := by
  simp only [TTS.text_to_speech, htext, hstyle]

theorem c8_language_noninterference_witness :
    TTS.text_to_speech false (fun _ _ => []) (fun _ => 0) 0 "id" []
        ⟨some "hi", some "en", none⟩ =
      TTS.text_to_speech false (fun _ _ => []) (fun _ => 0) 0 "id" []
        ⟨some "hi", some "hr", none⟩ :=
  c8_language_noninterference false (fun _ _ => []) (fun _ => 0) 0 "id" []
    ⟨some "hi", some "en", none⟩ ⟨some "hi", some "hr", none⟩ rfl rfl

lemma string_append_left_cancel {a b c : String} (h : a ++ b = a ++ c) : b = c := by
  have hd := congrArg String.data h
  rw [String.data_append, String.data_append] at hd
  exact String.ext (List.append_cancel_left hd)

lemma findFile_eq_none (path : String) (files : List (String × List ℚ))
    (h : ∀ p ∈ files, path ≠ p.1) : TTS.findFile path files = none := by
  induction files with
  | nil => rfl
  | cons p rest ih =>
    rw [TTS.findFile, if_neg (h p (List.mem_cons_self p rest))]
    exact ih (fun q hq => h q (List.mem_cons_of_mem p hq))

/-- C4: a requested filename (necessarily slash-free, by the route's
converter) that differs from every filename produced by synthesize — so
every file on disk lives under AUDIO_DIR with some other name — gets a 404
response from the audio endpoint. -/
theorem c4_unknown_filename_404 (files : List (String × List ℚ))
    (filename : String) (habs : filename.data.head? ≠ some '/')
    (hprod : ∀ p ∈ files, ∃ id, p.1 = TTS.AUDIO_DIR ++ "/" ++ id ∧ id ≠ filename) :
    TTS.serve_audio files filename = .notFound := by
  have hjoin : TTS.osPathJoin TTS.AUDIO_DIR filename =
      TTS.AUDIO_DIR ++ "/" ++ filename := by
    rw [TTS.osPathJoin, if_neg habs]
  rw [TTS.serve_audio]
  rw [hjoin, findFile_eq_none]
  intro p hp
  obtain ⟨id, hid, hne⟩ := hprod p hp
  rw [hid]
  intro heq
  exact hne (string_append_left_cancel heq.symm)

theorem c4_unknown_filename_404_witness :
    TTS.serve_audio [("/tmp/tts_audio/abc.wav", [0])] "missing.wav" = .notFound :=
  c4_unknown_filename_404 [("/tmp/tts_audio/abc.wav", [0])] "missing.wav"
    (by decide)
    (fun p hp => by
      rw [List.mem_singleton] at hp
      subst hp
      exact ⟨"abc.wav", by decide, by decide⟩)

/-- C5: once the uploaded audio has been persisted to the temporary path,
that path is gone from disk when the handler returns, whether the detection
body succeeds or raises. -/
theorem c5_temp_file_deleted (o : VAD.Oracle) (tmp_path : String)
    (tmpFiles : List String) (content : List ℕ) :
    tmp_path ∉ (VAD.detect_speech o tmp_path tmpFiles (some content)).tmpFiles := by
  simp only [VAD.detect_speech]
  cases h : o.read_audio content <;>
    simp [h, VAD.unlinkIfExists, List.mem_filter]

/-- C6: when the segmentation pass yields no segments, the response is
has_speech = false with an empty timestamp list, confidence exactly 0 and
num_segments = 0, and the model is not rerun for confidence scoring. -/
theorem c6_silence_response (o : VAD.Oracle) (tmp_path : String)
    (tmpFiles : List String) (content : List ℕ) (wav : List ℚ)
    (hread : o.read_audio content = Except.ok wav)
    (hseg : o.get_speech_timestamps wav = []) :
    (VAD.detect_speech o tmp_path tmpFiles (some content)).result =
      .ok false [] 0 0 ∧
    (VAD.detect_speech o tmp_path tmpFiles (some content)).modelCalls = 0 := by
  simp [VAD.detect_speech, hread, hseg]

theorem c6_silence_response_witness :
    (VAD.detect_speech VAD.oracle0 "tmp" [] (some [])).result =
      .ok false [] 0 0 ∧
    (VAD.detect_speech VAD.oracle0 "tmp" [] (some [])).modelCalls = 0 :=
  c6_silence_response VAD.oracle0 "tmp" [] [] [] rfl rfl

/-- C7: when segmentation finds speech, the returned timestamps are exactly
the sample offsets divided by the configured sampling rate (16000), so each
satisfies start ≤ end and the list stays in ascending, non-overlapping order
whenever the sample-level segments are. -/
theorem c7_timestamps_ordered (o : VAD.Oracle) (tmp_path : String)
    (tmpFiles : List String) (content : List ℕ) (wav : List ℚ)
    (hread : o.read_audio content = Except.ok wav)
    (hle : ∀ s ∈ o.get_speech_timestamps wav, s.start ≤ s.stop)
    (hchain : List.Chain' (fun a b => a.stop ≤ b.start)
      (o.get_speech_timestamps wav)) :
    (VAD.detect_speech o tmp_path tmpFiles (some content)).result.timestamps =
      some ((o.get_speech_timestamps wav).map
        (fun s => ((s.start : ℚ) / (VAD.SAMPLING_RATE : ℚ),
                   (s.stop : ℚ) / (VAD.SAMPLING_RATE : ℚ)))) ∧
    (∀ p ∈ (o.get_speech_timestamps wav).map
        (fun s => ((s.start : ℚ) / (VAD.SAMPLING_RATE : ℚ),
                   (s.stop : ℚ) / (VAD.SAMPLING_RATE : ℚ))), p.1 ≤ p.2) ∧
    List.Chain' (fun a b : ℚ × ℚ => a.2 ≤ b.1)
      ((o.get_speech_timestamps wav).map
        (fun s => ((s.start : ℚ) / (VAD.SAMPLING_RATE : ℚ),
                   (s.stop : ℚ) / (VAD.SAMPLING_RATE : ℚ)))) := by
  have hpos : (0 : ℚ) < (VAD.SAMPLING_RATE : ℚ) := by
    norm_num [VAD.SAMPLING_RATE]
  refine ⟨?_, ?_, ?_⟩
  · simp [VAD.detect_speech, hread, VAD.DetectResult.timestamps]
  · intro p hp
    rw [List.mem_map] at hp
    obtain ⟨s, hs, rfl⟩ := hp
    exact (div_le_div_iff_of_pos_right hpos).mpr (by exact_mod_cast hle s hs)
  · rw [List.chain'_map]
    exact hchain.imp (fun a b h =>
      (div_le_div_iff_of_pos_right hpos).mpr (by exact_mod_cast h))

theorem c7_timestamps_ordered_witness :
    (VAD.detect_speech VAD.oracle1 "tmp" [] (some [])).result.timestamps =
      some ((VAD.oracle1.get_speech_timestamps []).map
        (fun s => ((s.start : ℚ) / (VAD.SAMPLING_RATE : ℚ),
                   (s.stop : ℚ) / (VAD.SAMPLING_RATE : ℚ)))) ∧
    (∀ p ∈ (VAD.oracle1.get_speech_timestamps []).map
        (fun s => ((s.start : ℚ) / (VAD.SAMPLING_RATE : ℚ),
                   (s.stop : ℚ) / (VAD.SAMPLING_RATE : ℚ))), p.1 ≤ p.2) ∧
    List.Chain' (fun a b : ℚ × ℚ => a.2 ≤ b.1)
      ((VAD.oracle1.get_speech_timestamps []).map
        (fun s => ((s.start : ℚ) / (VAD.SAMPLING_RATE : ℚ),
                   (s.stop : ℚ) / (VAD.SAMPLING_RATE : ℚ)))) :=
  c7_timestamps_ordered VAD.oracle1 "tmp" [] [] [] rfl (by decide)
    (by simp [VAD.oracle1, List.chain'_cons, List.chain'_singleton])

lemma chunks4096_flatten (l : List ℚ) : (TTS.chunks4096 l).flatten = l := by
  induction l using TTS.chunks4096.induct with
  | case1 => rw [TTS.chunks4096]; rfl
  | case2 a l ih =>
    rw [TTS.chunks4096, List.flatten_cons, ih, List.take_append_drop]

lemma chunks4096_length_le (l : List ℚ) :
    ∀ c ∈ TTS.chunks4096 l, c.length ≤ 4096 := by
  induction l using TTS.chunks4096.induct with
  | case1 => intro c hc; rw [TTS.chunks4096] at hc; cases hc
  | case2 a l ih =>
    intro c hc
    rw [TTS.chunks4096] at hc
    rcases List.mem_cons.mp hc with rfl | hc
    · exact List.length_take_le 4096 (a :: l)
    · exact ih c hc

lemma chunks4096_dropLast_length (l : List ℚ) :
    ∀ c ∈ (TTS.chunks4096 l).dropLast, c.length = 4096 := by
  induction l using TTS.chunks4096.induct with
  | case1 => intro c hc; rw [TTS.chunks4096] at hc; cases hc
  | case2 a l ih =>
    intro c hc
    rw [TTS.chunks4096] at hc
    cases hrest : TTS.chunks4096 ((a :: l).drop 4096) with
    | nil => rw [hrest] at hc; cases hc
    | cons c0 cs =>
      rw [hrest, List.dropLast_cons₂] at hc
      rcases List.mem_cons.mp hc with rfl | hc
      · have hdrop : (a :: l).drop 4096 ≠ [] := by
          intro h0
          rw [h0, TTS.chunks4096] at hrest
          cases hrest
        have hlen : 4096 ≤ (a :: l).length := by
          by_contra hlt
          push_neg at hlt
          exact hdrop (List.drop_eq_nil_iff.mpr (le_of_lt hlt))
        rw [List.length_take]
        omega
      · exact ih c (by rw [hrest]; exact hc)

/-- C9: for a non-empty text, the stream endpoint emits exactly the audio of
the same generation call used by synthesize, converted samplewise to 16-bit
PCM and sliced into in-order chunks of 4096 samples (every chunk but the
last is full, none exceeds 4096); concatenating all chunks reconstructs the
complete converted signal, and synthesize writes that very audio array. -/
theorem c9_stream_chunks_refinement (ml : Bool) (gen : String → String → List ℚ)
    (sinF : ℚ → ℚ) (piF : ℚ) (uuid : String) (files : List (String × List ℚ))
    (req : TTS.TTSRequest) (t : String) (ht : req.text = some t) (hne : t ≠ "") :
    TTS.text_to_speech_stream ml gen sinF piF req =
      .stream ((TTS.chunks4096 (TTS.generatedAudio ml gen sinF piF
          (req.style.getD "A clear, friendly voice speaks naturally.") t)).map
        (fun c => c.map TTS.pcm16)) ∧
    ((TTS.chunks4096 (TTS.generatedAudio ml gen sinF piF
          (req.style.getD "A clear, friendly voice speaks naturally.") t)).map
        (fun c => c.map TTS.pcm16)).flatten =
      (TTS.generatedAudio ml gen sinF piF
          (req.style.getD "A clear, friendly voice speaks naturally.") t).map
        TTS.pcm16 ∧
    (∀ c ∈ ((TTS.chunks4096 (TTS.generatedAudio ml gen sinF piF
          (req.style.getD "A clear, friendly voice speaks naturally.") t)).map
        (fun c => c.map TTS.pcm16)).dropLast, c.length = 4096) ∧
    (∀ c ∈ (TTS.chunks4096 (TTS.generatedAudio ml gen sinF piF
          (req.style.getD "A clear, friendly voice speaks naturally.") t)).map
        (fun c => c.map TTS.pcm16), c.length ≤ 4096) ∧
    (TTS.text_to_speech ml gen sinF piF uuid files req).2 =
      (TTS.osPathJoin TTS.AUDIO_DIR (uuid ++ ".wav"),
        TTS.generatedAudio ml gen sinF piF
          (req.style.getD "A clear, friendly voice speaks naturally.") t) :: files := by
  set A := TTS.generatedAudio ml gen sinF piF
    (req.style.getD "A clear, friendly voice speaks naturally.") t with hA
  refine ⟨?_, ?_, ?_, ?_, ?_⟩
  · simp only [TTS.text_to_speech_stream, ht, Option.getD_some, if_neg hne, hA]
  · rw [← List.map_flatten, chunks4096_flatten]
  · intro c hc
    rw [← List.map_dropLast, List.mem_map] at hc
    obtain ⟨c0, hc0, rfl⟩ := hc
    rw [List.length_map]
    exact chunks4096_dropLast_length A c0 hc0
  · intro c hc
    rw [List.mem_map] at hc
    obtain ⟨c0, hc0, rfl⟩ := hc
    rw [List.length_map]
    exact chunks4096_length_le A c0 hc0
  · simp only [TTS.text_to_speech, ht, Option.getD_some, if_neg hne, hA]

theorem c9_stream_chunks_refinement_witness :
    TTS.text_to_speech_stream false (fun _ _ => []) (fun _ => 0) 0
        ⟨some "hi", none, none⟩ =
      .stream ((TTS.chunks4096 (TTS.generatedAudio false (fun _ _ => [])
          (fun _ => 0) 0
          ((none : Option String).getD "A clear, friendly voice speaks naturally.")
          "hi")).map (fun c => c.map TTS.pcm16)) ∧
    ((TTS.chunks4096 (TTS.generatedAudio false (fun _ _ => []) (fun _ => 0) 0
          ((none : Option String).getD "A clear, friendly voice speaks naturally.")
          "hi")).map (fun c => c.map TTS.pcm16)).flatten =
      (TTS.generatedAudio false (fun _ _ => []) (fun _ => 0) 0
          ((none : Option String).getD "A clear, friendly voice speaks naturally.")
          "hi").map TTS.pcm16 ∧
    (∀ c ∈ ((TTS.chunks4096 (TTS.generatedAudio false (fun _ _ => [])
          (fun _ => 0) 0
          ((none : Option String).getD "A clear, friendly voice speaks naturally.")
          "hi")).map (fun c => c.map TTS.pcm16)).dropLast, c.length = 4096) ∧
    (∀ c ∈ (TTS.chunks4096 (TTS.generatedAudio false (fun _ _ => [])
          (fun _ => 0) 0
          ((none : Option String).getD "A clear, friendly voice speaks naturally.")
          "hi")).map (fun c => c.map TTS.pcm16), c.length ≤ 4096) ∧
    (TTS.text_to_speech false (fun _ _ => []) (fun _ => 0) 0 "id" []
        ⟨some "hi", none, none⟩).2 =
      (TTS.osPathJoin TTS.AUDIO_DIR ("id" ++ ".wav"),
        TTS.generatedAudio false (fun _ _ => []) (fun _ => 0) 0
          ((none : Option String).getD "A clear, friendly voice speaks naturally.")
          "hi") :: [] :=
  c9_stream_chunks_refinement false (fun _ _ => []) (fun _ => 0) 0 "id" []
    ⟨some "hi", none, none⟩ "hi" rfl (by decide)

lemma frombufferInt16_eq_none_of_odd (l : List ℕ) (h : l.length % 2 = 1) :
    VAD.frombufferInt16 l = none := by
  induction l using VAD.frombufferInt16.induct with
  | case1 => simp at h
  | case2 x => rfl
  | case3 lo hi rest ih =>
    have h2 : rest.length % 2 = 1 := by
      simp only [List.length_cons] at h
      omega
    rw [VAD.frombufferInt16, ih h2]
    rfl

lemma frombufferInt16_isSome_of_even (l : List ℕ) (h : l.length % 2 = 0) :
    ∃ s, VAD.frombufferInt16 l = some s := by
  induction l using VAD.frombufferInt16.induct with
  | case1 => exact ⟨[], rfl⟩
  | case2 x => simp at h
  | case3 lo hi rest ih =>
    have h2 : rest.length % 2 = 0 := by
      simp only [List.length_cons] at h
      omega
    obtain ⟨s, hs⟩ := ih h2
    exact ⟨VAD.toInt16 lo hi :: s, by rw [VAD.frombufferInt16, hs]; rfl⟩

lemma toInt16_range (lo hi : ℕ) (hlo : lo < 256) (hhi : hi < 256) :
    -32768 ≤ VAD.toInt16 lo hi ∧ VAD.toInt16 lo hi < 32768 := by
  rw [VAD.toInt16]
  split <;> omega

lemma frombufferInt16_range (l : List ℕ) (hl : ∀ b ∈ l, b < 256) :
    ∀ s, VAD.frombufferInt16 l = some s →
      ∀ v ∈ s, -32768 ≤ v ∧ v < 32768 := by
  induction l using VAD.frombufferInt16.induct with
  | case1 =>
    intro s hs v hv
    rw [VAD.frombufferInt16] at hs
    cases hs
    cases hv
  | case2 x =>
    intro s hs
    cases hs
  | case3 lo hi rest ih =>
    intro s hs v hv
    rw [VAD.frombufferInt16] at hs
    rw [Option.map_eq_some'] at hs
    obtain ⟨s0, hs0, rfl⟩ := hs
    rcases List.mem_cons.mp hv with rfl | hv
    · exact toInt16_range lo hi (hl lo (by simp)) (hl hi (by simp))
    · exact ih (fun b hb => hl b (by simp [hb])) s0 hs0 v hv

/-- C10: a payload of odd byte length makes the 16-bit PCM decode fail, so
the stream-detect handler returns a 500 and never evaluates the model; an
even-length payload is decoded into int16 samples, each normalized by 32768
into [-1, 1), on which the model is evaluated once. -/
theorem c10_pcm_decode (o : VAD.Oracle) (body : List ℕ)
    (hbytes : ∀ b ∈ body, b < 256) :
    (body.length % 2 = 1 →
      (VAD.detect_stream o body).1 =
        .serverError "buffer size must be a multiple of element size" ∧
      (VAD.detect_stream o body).2 = 0) ∧
    (body.length % 2 = 0 →
      ∃ samples, VAD.frombufferInt16 body = some samples ∧
        (VAD.detect_stream o body).1 =
          .ok (decide (VAD.THRESHOLD <
              o.modelProb (samples.map (fun (v : ℤ) => (v : ℚ) / 32768))))
            (o.modelProb (samples.map (fun (v : ℤ) => (v : ℚ) / 32768)))
            VAD.THRESHOLD ∧
        (VAD.detect_stream o body).2 = 1 ∧
        ∀ x ∈ samples.map (fun (v : ℤ) => (v : ℚ) / 32768), -1 ≤ x ∧ x < 1) := by
  have hc : (0 : ℚ) < 32768 := by norm_num
  constructor
  · intro hodd
    simp [VAD.detect_stream, frombufferInt16_eq_none_of_odd body hodd]
  · intro heven
    obtain ⟨samples, hs⟩ := frombufferInt16_isSome_of_even body heven
    refine ⟨samples, hs, ?_, ?_, ?_⟩
    · simp only [VAD.detect_stream, hs]
    · simp only [VAD.detect_stream, hs]
    · intro x hx
      rw [List.mem_map] at hx
      obtain ⟨v, hv, rfl⟩ := hx
      obtain ⟨h1, h2⟩ := frombufferInt16_range body hbytes samples hs v hv
      constructor
      · have h1q : (-32768 : ℚ) ≤ (v : ℚ) := by exact_mod_cast h1
        have := (div_le_div_iff_of_pos_right hc).mpr h1q
        norm_num at this
        exact this
      · have h2q : (v : ℚ) < 32768 := by exact_mod_cast h2
        have := (div_lt_div_iff_of_pos_right hc).mpr h2q
        norm_num at this
        exact this

theorem c10_pcm_decode_witness :
    (VAD.detect_stream VAD.oracle0 [7]).1 =
      .serverError "buffer size must be a multiple of element size" ∧
    (VAD.detect_stream VAD.oracle0 [7]).2 = 0 :=
  (c10_pcm_decode VAD.oracle0 [7] (by decide)).1 (by decide)
